import Mathlib

/-!
Verification of the multi-backend launch-command synthesizer
(`deepspeed/launcher/multinode_runner.py`).

The Python module is shallowly embedded below:

* `Args` mirrors the launch configuration object consumed read-only by every
  runner; `EnvT` is an insertion-ordered association list standing for a
  Python `dict` of strings (Python 3.7+ dicts preserve insertion order, and
  assignment to an existing key keeps its original position).
* The `json` standard-library calls made by `SlurmRunner.parse_user_args` and
  `MosaicMLRunner.parse_user_args` are embedded by an executable JSON parser
  (`jsonLoads`, mirroring `json.loads`) and compact serializer (`jsonDumps`,
  mirroring `json.dumps(..., separators=(",", ":"))` with its default
  `ensure_ascii=True` escaping).
* Each runner's `get_cmd` becomes a pure function returning the produced
  argument vector together with the (possibly updated) environment mapping
  that the Python code mutates in place; Python exceptions become the
  `Err` sum type, with `assert` failures mapped to the error taxonomy of the
  specification (`UnsupportedConfiguration`, `HeterogeneousResourcePool`),
  the `ValueError` of the JSON-rewrite normalizers to `invalidUserConfig`,
  and the remaining reachable Python exceptions to their own constructors.
* Ambient process-wide state read by the code (`sys.executable`,
  `os.path.abspath(".")`, `os.environ`) is made an explicit `Ambient`
  parameter.
-/

/-- Quote character, kept as a named constant. -/
def quoteChar : Char := Char.ofNat 34

/-- Single-quote character. -/
def squoteChar : Char := Char.ofNat 39

/-- Backslash character. -/
def bslashChar : Char := Char.ofNat 92

/-- Opening curly brace character. -/
def lbChar : Char := Char.ofNat 123

/-- Closing curly brace character. -/
def rbChar : Char := Char.ofNat 125

/-- Single-quote as a one-character string. -/
def squoteStr : String := String.singleton squoteChar

/-- Opening curly brace as a one-character string. -/
def lbStr : String := String.singleton lbChar

/-- Closing curly brace as a one-character string. -/
def rbStr : String := String.singleton rbChar

/-- Whitespace characters removed by Python `str.strip()` (the ASCII ones). -/
def pyIsSpace (c : Char) : Bool :=
  c = Char.ofNat 32 || c = Char.ofNat 9 || c = Char.ofNat 10 ||
  c = Char.ofNat 13 || c = Char.ofNat 11 || c = Char.ofNat 12

/-- Python `str.strip()`: drop leading and trailing whitespace. -/
def pyStrip (s : String) : String :=
  String.mk (((s.data.dropWhile pyIsSpace).reverse.dropWhile pyIsSpace).reverse)

/-- Python `str.startswith(pre)`. -/
def strStartsWith (s pre : String) : Bool :=
  pre.data.isPrefixOf s.data

/-- Python `str.endswith(post)`. -/
def strEndsWith (s post : String) : Bool :=
  post.data.isSuffixOf s.data

/-- Insertion-ordered string dictionary (Python `dict` of strings). -/
abbrev EnvT := List (String × String)

/-- Python `d[k] = v` on an insertion-ordered dictionary: overwrite the value
in place when the key exists, append the pair otherwise. -/
def dictSet (d : EnvT) (k v : String) : EnvT :=
  match d with
  | [] => [(k, v)]
  | (k0, v0) :: r => if k0 = k then (k0, v) :: r else (k0, v0) :: dictSet r k v

/-- Python `d.get(k)` / `k in d` on an insertion-ordered dictionary. -/
def dictGet (d : EnvT) (k : String) : Option String :=
  match d with
  | [] => none
  | (k0, v0) :: r => if k0 = k then some v0 else dictGet r k

/-- Keys of a dictionary, in insertion order. -/
def dictKeys (d : EnvT) : List String := d.map Prod.fst

/-! JSON values, as produced by Python `json.loads`.  Objects keep insertion
order (Python builds a `dict`); the parser resolves duplicate keys exactly as
repeated `dict` assignment does.  Integer literals are kept as integers
(Python `int`); numeric literals with a fraction or exponent, and the
non-standard constants `NaN`/`Infinity`/`-Infinity` accepted by Python, are
kept as their source lexeme (Python would hold a `float`; its re-serialization
via `repr` coincides with the lexeme for canonically written literals). -/

mutual
inductive Json where
  | null : Json
  | bool (b : Bool) : Json
  | int (n : Int) : Json
  | numLit (s : String) : Json
  | str (s : String) : Json
  | arr (xs : JsonList) : Json
  | obj (kvs : JsonObj) : Json

inductive JsonList where
  | nil : JsonList
  | cons (hd : Json) (tl : JsonList) : JsonList

inductive JsonObj where
  | nil : JsonObj
  | cons (k : String) (v : Json) (tl : JsonObj) : JsonObj
end

/-- Python `d[k] = v` on a parsed JSON object. -/
def objSet : JsonObj → String → Json → JsonObj
  | .nil, k, v => .cons k v .nil
  | .cons k0 v0 r, k, v =>
    if k0 = k then .cons k0 v r else .cons k0 v0 (objSet r k v)

/-- Python `d.get(k)` / `k in d` on a parsed JSON object. -/
def objLookup : JsonObj → String → Option Json
  | .nil, _ => none
  | .cons k0 v0 r, k => if k0 = k then some v0 else objLookup r k

/-- Build a JSON object from parsed members by repeated `dict` assignment
(first occurrence fixes the position of a key, last occurrence its value). -/
def objOfPairs (pairs : List (String × Json)) : JsonObj :=
  pairs.foldl (fun acc kv => objSet acc kv.1 kv.2) .nil

/-- Convert a plain list of values into a `JsonList`. -/
def toJsonList (xs : List Json) : JsonList :=
  match xs with
  | [] => .nil
  | x :: r => .cons x (toJsonList r)

/-- JSON whitespace skipped between tokens (as in Python's `json` module). -/
def jsonIsWs (c : Char) : Bool :=
  c = Char.ofNat 32 || c = Char.ofNat 9 || c = Char.ofNat 10 || c = Char.ofNat 13

/-- Drop leading JSON whitespace. -/
def skipWs : List Char → List Char
  | [] => []
  | c :: r => if jsonIsWs c then skipWs r else c :: r

/-- Value of a hexadecimal digit. -/
def hexVal (c : Char) : Option Nat :=
  if 48 ≤ c.toNat ∧ c.toNat ≤ 57 then some (c.toNat - 48)
  else if 97 ≤ c.toNat ∧ c.toNat ≤ 102 then some (c.toNat - 87)
  else if 65 ≤ c.toNat ∧ c.toNat ≤ 70 then some (c.toNat - 55)
  else none

/-- ASCII decimal digit test. -/
def isDigitC (c : Char) : Bool := 48 ≤ c.toNat && c.toNat ≤ 57

/-- Numeric value of a list of decimal digits. -/
def digitsToNat (ds : List Char) : Nat :=
  ds.foldl (fun a c => a * 10 + (c.toNat - 48)) 0

/-- Body of a JSON string literal, after the opening quote.  Faithful to
Python's strict decoder: raw control characters are rejected, the short
escapes and `\uXXXX` (with surrogate-pair combination) are accepted.  Lone
surrogates, which Python would keep, have no `Char` representation and are
reported as a parse error; this corner is unreachable from the repository's
inputs.  The fuel argument exceeds the input length, so it never runs out
before the closing quote or the end of input. -/
def parseStringBody : Nat → List Char → String → Except String (String × List Char)
  | 0, _, _ => .error "Unterminated string starting at"
  | _ + 1, [], _ => .error "Unterminated string starting at"
  | f + 1, c :: rest, acc =>
    if c = quoteChar then .ok (acc, rest)
    else if c = bslashChar then
      match rest with
      | [] => .error "Unterminated string starting at"
      | e :: rest2 =>
        if e = quoteChar then parseStringBody f rest2 (acc.push quoteChar)
        else if e = bslashChar then parseStringBody f rest2 (acc.push bslashChar)
        else if e = Char.ofNat 47 then parseStringBody f rest2 (acc.push (Char.ofNat 47))
        else if e = Char.ofNat 98 then parseStringBody f rest2 (acc.push (Char.ofNat 8))
        else if e = Char.ofNat 102 then parseStringBody f rest2 (acc.push (Char.ofNat 12))
        else if e = Char.ofNat 110 then parseStringBody f rest2 (acc.push (Char.ofNat 10))
        else if e = Char.ofNat 114 then parseStringBody f rest2 (acc.push (Char.ofNat 13))
        else if e = Char.ofNat 116 then parseStringBody f rest2 (acc.push (Char.ofNat 9))
        else if e = Char.ofNat 117 then
          match rest2 with
          | a :: b :: c2 :: d :: rest3 =>
            match hexVal a, hexVal b, hexVal c2, hexVal d with
            | some ha, some hb, some hc, some hd =>
              let n := ((ha * 16 + hb) * 16 + hc) * 16 + hd
              if 55296 ≤ n ∧ n < 56320 then
                match rest3 with
                | e1 :: e2 :: a2 :: b2 :: c3 :: d2 :: rest4 =>
                  if e1 = bslashChar ∧ e2 = Char.ofNat 117 then
                    match hexVal a2, hexVal b2, hexVal c3, hexVal d2 with
                    | some ha2, some hb2, some hc2, some hd2 =>
                      let m := ((ha2 * 16 + hb2) * 16 + hc2) * 16 + hd2
                      if 56320 ≤ m ∧ m < 57344 then
                        parseStringBody f rest4
                          (acc.push (Char.ofNat (65536 + (n - 55296) * 1024 + (m - 56320))))
                      else .error "Unpaired high surrogate"
                    | _, _, _, _ => .error "Invalid \\uXXXX escape"
                  else .error "Unpaired high surrogate"
                | _ => .error "Unpaired high surrogate"
              else if 56320 ≤ n ∧ n < 57344 then .error "Unpaired low surrogate"
              else parseStringBody f rest3 (acc.push (Char.ofNat n))
            | _, _, _, _ => .error "Invalid \\uXXXX escape"
          | _ => .error "Invalid \\uXXXX escape"
        else .error "Invalid \\escape"
    else if c.toNat < 32 then .error "Invalid control character"
    else parseStringBody f rest (acc.push c)

/-- Parse a JSON number token at the head of the input, following the number
regular expression of Python's `json` scanner: an optional minus sign, an
integer part with no leading zeros, then an optional fraction and an optional
exponent (each only consumed when complete, as with regex matching).  A pure
integer literal becomes `Json.int`; otherwise the matched lexeme is kept. -/
def parseNumber (cs : List Char) : Except String (Json × List Char) :=
  let step1 : Option (List Char × List Char) :=
    match cs with
    | c :: r =>
      if c = Char.ofNat 45 then
        match r with
        | d :: r2 =>
          if d = Char.ofNat 48 then some ([c, d], r2)
          else if isDigitC d ∧ d ≠ Char.ofNat 48 then
            let (ds, rest) := r2.span isDigitC
            some (c :: d :: ds, rest)
          else none
        | [] => none
      else if c = Char.ofNat 48 then some ([c], r)
      else if isDigitC c then
        let (ds, rest) := r.span isDigitC
        some (c :: ds, rest)
      else none
    | [] => none
  match step1 with
  | none => .error "Expecting value"
  | some (intPart, rest1) =>
    let fracStep : List Char × List Char :=
      match rest1 with
      | c :: r2 =>
        if c = Char.ofNat 46 then
          match r2.span isDigitC with
          | ([], _) => ([], rest1)
          | (fs, r3) => (c :: fs, r3)
        else ([], rest1)
      | [] => ([], rest1)
    let fracPart := fracStep.1
    let rest2 := fracStep.2
    let expStep : List Char × List Char :=
      match rest2 with
      | c :: r2 =>
        if c = Char.ofNat 101 ∨ c = Char.ofNat 69 then
          match r2 with
          | s :: r3 =>
            if s = Char.ofNat 43 ∨ s = Char.ofNat 45 then
              match r3.span isDigitC with
              | ([], _) => ([], rest2)
              | (es, r4) => (c :: s :: es, r4)
            else
              match r2.span isDigitC with
              | ([], _) => ([], rest2)
              | (es, r4) => (c :: es, r4)
          | [] => ([], rest2)
        else ([], rest2)
      | [] => ([], rest2)
    let expPart := expStep.1
    let rest3 := expStep.2
    if fracPart.isEmpty ∧ expPart.isEmpty then
      match intPart with
      | c :: ds =>
        if c = Char.ofNat 45 then .ok (.int (-(digitsToNat ds : Int)), rest1)
        else .ok (.int (digitsToNat intPart : Int), rest1)
      | [] => .error "Expecting value"
    else
      .ok (.numLit (String.mk (intPart ++ fracPart ++ expPart)), rest3)

/-- Parser modes: a plain value, the inside of an object (just after the
opening brace, or after a comma with the members collected so far), and the
inside of an array. -/
inductive PMode where
  | value : PMode
  | objStart : PMode
  | objMember (acc : List (String × Json)) : PMode
  | arrStart : PMode
  | arrItem (acc : List Json) : PMode

/-- Recursive-descent JSON parser, mirroring Python's `json.loads` grammar
(strict mode): values are objects, arrays, strings, numbers, `true`, `false`,
`null`, and the Python-accepted constants `NaN`, `Infinity`, `-Infinity`.
The fuel argument only bounds the recursion depth; `jsonLoads` supplies fuel
exceeding any possible chain of recursive calls for its input, so fuel
exhaustion is unreachable from `jsonLoads`. -/
def parseCore : Nat → PMode → List Char → Except String (Json × List Char)
  | 0, _, _ => .error "Expecting value"
  | f + 1, .value, cs =>
    match skipWs cs with
    | [] => .error "Expecting value"
    | c :: rest =>
      if c = quoteChar then
        match parseStringBody (rest.length + 1) rest "" with
        | .error e => .error e
        | .ok (s, rest2) => .ok (.str s, rest2)
      else if c = lbChar then parseCore f .objStart rest
      else if c = Char.ofNat 91 then parseCore f .arrStart rest
      else if c = Char.ofNat 116 then
        match rest with
        | r1 :: u1 :: e1 :: r =>
          if r1 = Char.ofNat 114 ∧ u1 = Char.ofNat 117 ∧ e1 = Char.ofNat 101 then
            .ok (.bool true, r)
          else .error "Expecting value"
        | _ => .error "Expecting value"
      else if c = Char.ofNat 102 then
        match rest with
        | a1 :: l1 :: s1 :: e1 :: r =>
          if a1 = Char.ofNat 97 ∧ l1 = Char.ofNat 108 ∧ s1 = Char.ofNat 115 ∧
              e1 = Char.ofNat 101 then
            .ok (.bool false, r)
          else .error "Expecting value"
        | _ => .error "Expecting value"
      else if c = Char.ofNat 110 then
        match rest with
        | u1 :: l1 :: l2 :: r =>
          if u1 = Char.ofNat 117 ∧ l1 = Char.ofNat 108 ∧ l2 = Char.ofNat 108 then
            .ok (.null, r)
          else .error "Expecting value"
        | _ => .error "Expecting value"
      else if c = Char.ofNat 78 then
        match rest with
        | a1 :: n1 :: r =>
          if a1 = Char.ofNat 97 ∧ n1 = Char.ofNat 78 then .ok (.numLit "NaN", r)
          else .error "Expecting value"
        | _ => .error "Expecting value"
      else if c = Char.ofNat 73 then
        match rest with
        | n1 :: f1 :: i1 :: n2 :: i2 :: t1 :: y1 :: r =>
          if n1 = Char.ofNat 110 ∧ f1 = Char.ofNat 102 ∧ i1 = Char.ofNat 105 ∧
              n2 = Char.ofNat 110 ∧ i2 = Char.ofNat 105 ∧ t1 = Char.ofNat 116 ∧
              y1 = Char.ofNat 121 then
            .ok (.numLit "Infinity", r)
          else .error "Expecting value"
        | _ => .error "Expecting value"
      else if c = Char.ofNat 45 ∧ rest.head? = some (Char.ofNat 73) then
        match rest with
        | _ :: n1 :: f1 :: i1 :: n2 :: i2 :: t1 :: y1 :: r =>
          if n1 = Char.ofNat 110 ∧ f1 = Char.ofNat 102 ∧ i1 = Char.ofNat 105 ∧
              n2 = Char.ofNat 110 ∧ i2 = Char.ofNat 105 ∧ t1 = Char.ofNat 116 ∧
              y1 = Char.ofNat 121 then
            .ok (.numLit "-Infinity", r)
          else .error "Expecting value"
        | _ => .error "Expecting value"
      else parseNumber (c :: rest)
  | f + 1, .objStart, cs =>
    match skipWs cs with
    | [] => .error "Expecting property name enclosed in double quotes"
    | c :: rest =>
      if c = rbChar then .ok (.obj .nil, rest)
      else parseCore f (.objMember []) (c :: rest)
  | f + 1, .objMember acc, cs =>
    match skipWs cs with
    | [] => .error "Expecting property name enclosed in double quotes"
    | c :: rest =>
      if c = quoteChar then
        match parseStringBody (rest.length + 1) rest "" with
        | .error e => .error e
        | .ok (k, rest2) =>
          match skipWs rest2 with
          | c2 :: rest3 =>
            if c2 = Char.ofNat 58 then
              match parseCore f .value rest3 with
              | .error e => .error e
              | .ok (v, rest4) =>
                match skipWs rest4 with
                | c3 :: rest5 =>
                  if c3 = Char.ofNat 44 then
                    parseCore f (.objMember (acc ++ [(k, v)])) rest5
                  else if c3 = rbChar then
                    .ok (.obj (objOfPairs (acc ++ [(k, v)])), rest5)
                  else .error "Expecting comma delimiter"
                | [] => .error "Expecting comma delimiter"
            else .error "Expecting colon delimiter"
          | [] => .error "Expecting colon delimiter"
      else .error "Expecting property name enclosed in double quotes"
  | f + 1, .arrStart, cs =>
    match skipWs cs with
    | [] => .error "Expecting value"
    | c :: rest =>
      if c = Char.ofNat 93 then .ok (.arr .nil, rest)
      else parseCore f (.arrItem []) (c :: rest)
  | f + 1, .arrItem acc, cs =>
    match parseCore f .value cs with
    | .error e => .error e
    | .ok (v, rest) =>
      match skipWs rest with
      | c :: rest2 =>
        if c = Char.ofNat 44 then parseCore f (.arrItem (acc ++ [v])) rest2
        else if c = Char.ofNat 93 then .ok (.arr (toJsonList (acc ++ [v])), rest2)
        else .error "Expecting comma delimiter"
      | [] => .error "Expecting comma delimiter"

/-- Python `json.loads`: parse one JSON document, allowing only trailing
whitespace after it. -/
def jsonLoads (s : String) : Except String Json :=
  match parseCore (4 * s.length + 16) .value s.data with
  | .error e => .error e
  | .ok (j, rest) =>
    if (skipWs rest).isEmpty then .ok j else .error "Extra data"

/-- Lowercase hexadecimal digit. -/
def hexDigitChar (n : Nat) : Char :=
  if n < 10 then Char.ofNat (48 + n) else Char.ofNat (87 + n)

/-- Four lowercase hexadecimal digits, as in Python's `\uXXXX` escapes. -/
def hex4 (n : Nat) : String :=
  String.mk [hexDigitChar (n / 4096 % 16), hexDigitChar (n / 256 % 16),
             hexDigitChar (n / 16 % 16), hexDigitChar (n % 16)]

/-- Escape one character as Python `json.dumps` does with its default
`ensure_ascii=True`: printable ASCII passes through, quote and backslash get
short escapes, as do the usual control characters; everything else becomes
`\uXXXX`, with a surrogate pair for characters beyond the basic plane. -/
def escapeJChar (c : Char) : String :=
  if c = quoteChar then String.mk [bslashChar, quoteChar]
  else if c = bslashChar then String.mk [bslashChar, bslashChar]
  else if c = Char.ofNat 8 then "\\b"
  else if c = Char.ofNat 9 then "\\t"
  else if c = Char.ofNat 10 then "\\n"
  else if c = Char.ofNat 12 then "\\f"
  else if c = Char.ofNat 13 then "\\r"
  else if 32 ≤ c.toNat ∧ c.toNat ≤ 126 then String.singleton c
  else if c.toNat < 65536 then "\\u" ++ hex4 c.toNat
  else
    "\\u" ++ hex4 (55296 + (c.toNat - 65536) / 1024) ++
    "\\u" ++ hex4 (56320 + (c.toNat - 65536) % 1024)

/-- Serialize a string as a JSON string literal (Python `json.dumps` with
`ensure_ascii=True`). -/
def dumpJString (s : String) : String :=
  String.singleton quoteChar ++ String.join (s.data.map escapeJChar) ++
  String.singleton quoteChar

mutual
/-- Python `json.dumps(j, separators=(",", ":"))`: compact serialization with
no space after commas or colons. -/
def jsonDumps : Json → String
  | .null => "null"
  | .bool true => "true"
  | .bool false => "false"
  | .int n => toString n
  | .numLit s => s
  | .str s => dumpJString s
  | .arr xs => "[" ++ dumpJsonList xs ++ "]"
  | .obj ms => lbStr ++ dumpJsonObj ms ++ rbStr

/-- Comma-separated serialization of array elements. -/
def dumpJsonList : JsonList → String
  | .nil => ""
  | .cons x .nil => jsonDumps x
  | .cons x (.cons y r) => jsonDumps x ++ "," ++ dumpJsonList (.cons y r)

/-- Comma-separated serialization of object members. -/
def dumpJsonObj : JsonObj → String
  | .nil => ""
  | .cons k v .nil => dumpJString k ++ ":" ++ jsonDumps v
  | .cons k v (.cons k2 v2 r) =>
    dumpJString k ++ ":" ++ jsonDumps v ++ "," ++ dumpJsonObj (.cons k2 v2 r)
end

/-- Error taxonomy of the specification, together with the other Python
exceptions reachable from `get_cmd`: the capability `assert`s raise
`UnsupportedConfiguration`, the MVAPICH equal-device-count `assert` raises
`HeterogeneousResourcePool`, the `ValueError` of the JSON-rewrite normalizers
is `invalidUserConfig` (carrying its message and the wrapped parse error),
and `typeError` / `keyError` / `indexError` stand for the
`TypeError` / `KeyError` / `IndexError` that the Python code would let
escape on the corresponding inputs. -/
inductive Err where
  | unsupportedConfiguration (msg : String) : Err
  | invalidUserConfig (msg : String) (cause : String) : Err
  | heterogeneousResourcePool (msg : String) : Err
  | typeError (msg : String) : Err
  | attributeError (msg : String) : Err
  | keyError (msg : String) : Err
  | indexError (msg : String) : Err
  deriving Repr, DecidableEq

/-- Failures of the `config_files` rewriting step, before the surrounding
`try`/`except` decides which ones to convert: `decodeErr` is a
`json.JSONDecodeError` (caught and wrapped), the others correspond to
`TypeError` / `AttributeError` (not caught by `except json.JSONDecodeError`). -/
inductive RErr where
  | decodeErr (e : String) : RErr
  | typeErr (msg : String) : RErr
  | attributeErr (msg : String) : RErr

/-- Python loop `for k, v in arg_dict.get("config_files", {}).items():
config_files[k] = json.loads(v)`: parse each value, which must be a string
(`json.loads` of anything else raises `TypeError`), failing at the first bad
entry. -/
def parseConfigEntries : JsonObj → Except RErr (List (String × Json))
  | .nil => .ok []
  | .cons k v r =>
    match v with
    | .str s =>
      match jsonLoads s with
      | .error e => .error (.decodeErr e)
      | .ok jv =>
        match parseConfigEntries r with
        | .error e => .error e
        | .ok rest => .ok ((k, jv) :: rest)
    | _ => .error (.typeErr "the JSON object must be str, bytes or bytearray")

/-- Body of the `try` block shared by `SlurmRunner.parse_user_args` and
`MosaicMLRunner.parse_user_args`: when the parsed argument contains a
`config_files` member, parse each of its string values into its structured
form and store the rebuilt mapping back under `config_files` (an in-place
`dict` overwrite, preserving the key's position).  A brace-delimited document
always parses to an object, so the catch-all final case (a non-object value)
is unreachable from the runners and is the identity. -/
def rewriteConfigFiles : Json → Except RErr Json
  | .obj fields =>
    match objLookup fields "config_files" with
    | none => .ok (.obj fields)
    | some (.obj cf) =>
      match parseConfigEntries cf with
      | .error e => .error e
      | .ok ents => .ok (.obj (objSet fields "config_files" (.obj (objOfPairs ents))))
    | some _ => .error (.attributeErr "object has no attribute items")
  | j => .ok j

/-- One step of the JSON-rewrite normalizer: arguments shaped like a JSON
object (first character an opening brace, last character a closing brace) are
parsed, their `config_files` values structured, and the result re-serialized
compactly; a `json.JSONDecodeError` anywhere in that is converted to the
backend's `ValueError` (`invalidUserConfig`) wrapping the parse error; all
other arguments pass through unchanged. -/
def rewriteUserArg (msg : String) (arg : String) : Except Err String :=
  if strStartsWith arg lbStr && strEndsWith arg rbStr then
    match jsonLoads arg with
    | .error e => .error (.invalidUserConfig msg e)
    | .ok j =>
      match rewriteConfigFiles j with
      | .error (.decodeErr e) => .error (.invalidUserConfig msg e)
      | .error (.typeErr m) => .error (.typeError m)
      | .error (.attributeErr m) => .error (.attributeError m)
      | .ok j2 => .ok (jsonDumps j2)
  else .ok arg

/-- The user-argument loop shared by the two JSON-rewrite normalizers:
process arguments in order, stopping at the first failure. -/
def jsonRewriteUserArgs (msg : String) : List String → Except Err (List String)
  | [] => .ok []
  | a :: r =>
    match rewriteUserArg msg a with
    | .error e => .error e
    | .ok a2 =>
      match jsonRewriteUserArgs msg r with
      | .error e => .error e
      | .ok r2 => .ok (a2 :: r2)

/-- Message of the `ValueError` raised by `SlurmRunner.parse_user_args`. -/
def slurmJsonMsg : String :=
  "SLURM is picky and needs you to use plain json for your configs. Check for comments and lowercase trues"

/-- Message of the `ValueError` raised by `MosaicMLRunner.parse_user_args`. -/
def mosaicJsonMsg : String :=
  "Please use plain json for your configs. Check for comments and lowercase trues"

/-- `SlurmRunner.parse_user_args`. -/
def slurm_parse_user_args (user_args : List String) : Except Err (List String) :=
  jsonRewriteUserArgs slurmJsonMsg user_args

/-- `MosaicMLRunner.parse_user_args`. -/
def mosaic_parse_user_args (user_args : List String) : Except Err (List String) :=
  jsonRewriteUserArgs mosaicJsonMsg user_args

/-- Quoting applied by `PDSHRunner.parse_user_args` to one argument. -/
def pdshQuoteArg (x : String) : String :=
  if strStartsWith x "-" then x else squoteStr ++ x ++ squoteStr

/-- `PDSHRunner.parse_user_args`. -/
def pdsh_parse_user_args (user_args : List String) : List String :=
  user_args.map pdshQuoteArg

/-- `MultiNodeRunner.add_export`: strip both key and value, then store with
Python `dict` assignment semantics (overwrite in place, append when new). -/
def add_export (exports : EnvT) (key var : String) : EnvT :=
  dictSet exports (pyStrip key) (pyStrip var)

/-- The launch configuration (`args`) consumed read-only by every runner. -/
structure Args where
  user_script : String
  user_args : List String
  master_addr : String
  master_port : Nat
  hostfile : String
  «include» : String
  exclude : String
  num_nodes : Int
  num_gpus : Int
  detect_nvlink_pairs : Bool
  comment : String
  deriving Repr, DecidableEq

/-- Process-wide ambient state read by the runners besides their explicit
arguments: the interpreter path (`sys.executable`), the current working
directory (`os.path.abspath(".")`), and the process environment
(`os.environ`). -/
structure Ambient where
  sysExecutable : String
  cwd : String
  osEnviron : EnvT
  deriving Repr, DecidableEq

/-- Modelled from the spec: `PDSH_MAX_FAN_OUT`, the fixed maximum fan-out
concurrency, is imported from `deepspeed/launcher/constants.py`, which is not
part of the sources; only the fact that it is a fixed constant matters to the
claims. -/
def PDSH_MAX_FAN_OUT : Nat := 1024

/-- Modelled from the spec: `MVAPICH_TMP_HOSTFILE`, the fixed temporary
hostfile path, is imported from `deepspeed/launcher/constants.py`, which is
not part of the sources; only the fact that it is a fixed path matters to the
claims. -/
def MVAPICH_TMP_HOSTFILE : String := "/tmp/deepspeed_mvapich_hostfile"

/-- Exports present right after `OpenMPIRunner.__init__`. -/
def openmpiInitExports : EnvT := add_export [] "UCX_TLS" "tcp"

/-- Exports present right after `MVAPICHRunner.__init__`. -/
def mvapichInitExports : EnvT :=
  add_export (add_export (add_export (add_export (add_export (add_export (add_export []
    "MV2_SMP_USE_CMA" "0") "MV2_DEBUG_SHOW_BACKTRACE" "1") "MV2_USE_CUDA" "1")
    "MV2_SUPPORT_DL" "1") "MV2_ENABLE_AFFINITY" "0") "MV2_INTER_ALLGATHER_TUNING" "5")
    "MV2_CUDA_USE_NAIVE" "0"

/-- OpenMPI export rendering: one `-x K=V` pair per export, insertion order. -/
def renderExportsDashX (exports : EnvT) : List String :=
  exports.foldl (fun acc kv => acc ++ ["-x", kv.1 ++ "=" ++ kv.2]) []

/-- MVAPICH export rendering: one `-env K=V` pair per export, insertion order. -/
def renderExportsDashEnv (exports : EnvT) : List String :=
  exports.foldl (fun acc kv => acc ++ ["-env", kv.1 ++ "=" ++ kv.2]) []

/-- PDSH export rendering: a single `export K=V; ` prefix string. -/
def renderExportsPdsh (exports : EnvT) : String :=
  exports.foldl (fun acc kv => acc ++ "export " ++ kv.1 ++ "=" ++ kv.2 ++ "; ") ""

/-- Slurm export rendering: a single `--export=ALL,K=V,...` argument. -/
def renderExportsSlurm (exports : EnvT) : String :=
  exports.foldl (fun acc kv => acc ++ "," ++ kv.1 ++ "=" ++ kv.2) "--export=ALL"

/-- Python `sum(resource_pool.values())`. -/
def sumValues (resource_pool : List (String × Nat)) : Nat :=
  (resource_pool.map Prod.snd).sum

/-- Python `list.insert(1, x)`. -/
def pyInsert1 (x : String) : List String → List String
  | [] => [x]
  | h :: t => h :: x :: t

/-- `PDSHRunner.get_cmd`.  The passed-in environment mapping is mutated
(`PDSH_RCMD_TYPE` is set to `ssh`); the updated mapping is the second
component of the result.  `active_resources` is consumed only through its
keys, given here in insertion order. -/
def pdsh_get_cmd (args : Args) (world_info_base64 : String) (exports : EnvT)
    (amb : Ambient) (environment : EnvT) (active_resources : List String) :
    List String × EnvT :=
  let environment2 := dictSet environment "PDSH_RCMD_TYPE" "ssh"
  let active_workers := String.intercalate "," active_resources
  let pdsh_cmd_args := ["pdsh", "-f", toString PDSH_MAX_FAN_OUT, "-w", active_workers]
  let deepspeed_launch :=
    [renderExportsPdsh exports,
     "cd " ++ amb.cwd ++ ";",
     amb.sysExecutable, "-u", "-m", "deepspeed.launcher.launch",
     "--world_info=" ++ world_info_base64,
     "--node_rank=%n",
     "--master_addr=" ++ args.master_addr,
     "--master_port=" ++ toString args.master_port] ++
    (if args.detect_nvlink_pairs then ["--detect_nvlink_pairs"] else [])
  (pdsh_cmd_args ++ deepspeed_launch ++ [args.user_script] ++
     pdsh_parse_user_args args.user_args,
   environment2)

/-- `OpenMPIRunner.get_cmd`.  The three capability `assert`s are checked in
source order before anything is assembled; `--allow-run-as-root` is inserted
when `os.environ.get("RUN_MPI_AS_ROOT", False)` is truthy (present and
non-empty).  The passed-in environment is returned unchanged. -/
def openmpi_get_cmd (args : Args) (resource_pool : List (String × Nat)) (exports : EnvT)
    (amb : Ambient) (environment : EnvT) (active_resources : List String) :
    Except Err (List String) × EnvT :=
  (if args.«include» = "" ∧ args.exclude = "" then
    if args.num_nodes = -1 ∧ args.num_gpus = -1 then
      if args.detect_nvlink_pairs then
        .error (.unsupportedConfiguration "openmpi backend does not support remapping visible devices")
      else
        let total_process_count := sumValues resource_pool
        let allow_run_as_root :=
          match dictGet amb.osEnviron "RUN_MPI_AS_ROOT" with
          | some v => v != ""
          | none => false
        let mpirunCmd := ["mpirun", "-n", toString total_process_count, "-hostfile",
          args.hostfile, "--mca", "btl", "^openib", "--mca", "btl_tcp_if_include", "eth0"]
        let mpirunCmd2 :=
          if allow_run_as_root then pyInsert1 "--allow-run-as-root" mpirunCmd
          else mpirunCmd
        .ok (mpirunCmd2 ++ renderExportsDashX exports ++ [amb.sysExecutable, "-u"] ++
             [args.user_script] ++ args.user_args)
    else
      .error (.unsupportedConfiguration "openmpi backend does not support limiting num nodes/gpus")
  else
    .error (.unsupportedConfiguration "openmpi backend does not support worker include/exclusion"),
  environment)

/-- `SlurmRunner.get_cmd`.  `user_arguments` is the runner's normalized
user-argument list (computed by `slurm_parse_user_args` at construction).
The passed-in environment is returned unchanged. -/
def slurm_get_cmd (args : Args) (resource_pool : List (String × Nat)) (exports : EnvT)
    (user_arguments : List String) (amb : Ambient) (environment : EnvT)
    (active_resources : List String) : Except Err (List String) × EnvT :=
  (if args.detect_nvlink_pairs then
    .error (.unsupportedConfiguration "slurm backend does not support remapping visible devices")
  else
    let total_process_count := sumValues resource_pool
    let srunCmd := ["srun", "-n", toString total_process_count] ++
      (if args.comment ≠ "" then ["--comment", args.comment] else []) ++
      (if args.«include» ≠ "" then ["--include", args.«include»] else []) ++
      (if args.exclude ≠ "" then ["--exclude", args.exclude] else []) ++
      (if args.num_nodes > 0 then ["--nodes", toString args.num_nodes] else []) ++
      (if args.num_gpus > 0 then ["--gpus", toString args.num_gpus] else [])
    .ok (srunCmd ++ [renderExportsSlurm exports] ++ [amb.sysExecutable, "-u"] ++
         [args.user_script] ++ user_arguments),
  environment)

/-- `MVAPICHRunner.get_cmd`.  After the capability `assert`s (whose third
message names `openmpi`, as in the source), the per-node process count is the
first resource-pool value (`IndexError` on an empty pool), all values must
equal it (`HeterogeneousResourcePool` otherwise), and only then is the
hostfile written — its content, one host per line, is returned alongside the
command vector, so an error result implies nothing was written.  The
passed-in environment is returned unchanged. -/
def mvapich_get_cmd (args : Args) (resource_pool : List (String × Nat)) (exports : EnvT)
    (amb : Ambient) (environment : EnvT) (active_resources : List String) :
    Except Err (List String × String) × EnvT :=
  (if args.«include» = "" ∧ args.exclude = "" then
    if args.num_nodes = -1 ∧ args.num_gpus = -1 then
      if args.detect_nvlink_pairs then
        .error (.unsupportedConfiguration "openmpi backend does not support remapping visible devices")
      else
        match resource_pool.map Prod.snd with
        | [] => .error (.indexError "list index out of range")
        | process_per_node :: restCounts =>
          if restCounts.all (fun n => n == process_per_node) then
            let total_process_count := sumValues resource_pool
            let hostfileContent := String.join (resource_pool.map (fun kv => kv.1 ++ "\n"))
            let mpirunCmd := ["mpirun", "-np", toString total_process_count, "-ppn",
              toString process_per_node, "--hostfile", MVAPICH_TMP_HOSTFILE]
            .ok (mpirunCmd ++ renderExportsDashEnv exports ++ [amb.sysExecutable, "-u"] ++
                 [args.user_script] ++ args.user_args,
                 hostfileContent)
          else
            .error (.heterogeneousResourcePool "mvapich requires same number of devices per node")
    else
      .error (.unsupportedConfiguration "mvapich backend does not support limiting num nodes/gpus")
  else
    .error (.unsupportedConfiguration "mvapich backend does not support worker include/exclusion"),
  environment)

/-- `MosaicMLRunner.get_cmd`.  `user_arguments` is the runner's normalized
user-argument list (computed by `mosaic_parse_user_args` at construction).
Rank, address and port are read from the process environment (`os.environ`),
raising `KeyError` when absent.  The passed-in environment is returned
unchanged. -/
def mosaic_get_cmd (args : Args) (world_info_base64 : String)
    (user_arguments : List String) (amb : Ambient) (environment : EnvT)
    (active_resources : List String) : Except Err (List String) × EnvT :=
  (match dictGet amb.osEnviron "NODE_RANK" with
  | none => .error (.keyError "NODE_RANK")
  | some node_rank =>
    match dictGet amb.osEnviron "MASTER_ADDR" with
    | none => .error (.keyError "MASTER_ADDR")
    | some master_addr =>
      match dictGet amb.osEnviron "MASTER_PORT" with
      | none => .error (.keyError "MASTER_PORT")
      | some master_port =>
        .ok ([amb.sysExecutable, "-u", "-m", "deepspeed.launcher.launch",
              "--world_info=" ++ world_info_base64,
              "--node_rank=" ++ node_rank,
              "--master_addr=" ++ master_addr,
              "--master_port=" ++ master_port] ++
             [args.user_script] ++ user_arguments),
  environment)

/-- A sequence of caller `add_export` calls applied to a runner's export
table. -/
def applyAddExports (exports : EnvT) (adds : List (String × String)) : EnvT :=
  adds.foldl (fun acc kv => add_export acc kv.1 kv.2) exports

/-- Observer used to tell two command-vector results apart. -/
def cmdLen (r : Except Err (List String)) : Nat :=
  match r with
  | .ok l => l.length
  | .error _ => 0

/-- A launch configuration satisfying the capability constraints of every
backend, used to instantiate the universally quantified theorems below. -/
def argsV : Args :=
  { user_script := "train.py"
    user_args := ["--foo", "bar baz"]
    master_addr := "10.0.0.1"
    master_port := 29500
    hostfile := "/job/hostfile"
    «include» := ""
    exclude := ""
    num_nodes := -1
    num_gpus := -1
    detect_nvlink_pairs := false
    comment := "" }

/-- Concrete ambient state with the managed-platform variables present. -/
def amb0 : Ambient :=
  { sysExecutable := "/usr/bin/python"
    cwd := "/work"
    osEnviron := [("NODE_RANK", "0"), ("MASTER_ADDR", "10.0.0.1"), ("MASTER_PORT", "29500")] }

/-- Concrete ambient state with `RUN_MPI_AS_ROOT` set (and non-empty). -/
def ambRoot : Ambient :=
  { sysExecutable := "/usr/bin/python"
    cwd := "/work"
    osEnviron := [("RUN_MPI_AS_ROOT", "1")] }

/-- Concrete ambient state with an empty process environment. -/
def ambNoRoot : Ambient :=
  { sysExecutable := "/usr/bin/python"
    cwd := "/work"
    osEnviron := [] }

theorem dictGet_dictSet (d : EnvT) (k v : String) :
    dictGet (dictSet d k v) k = some v := by
  induction d with
  | nil => simp [dictSet, dictGet]
  | cons kv r ih =>
    obtain ⟨k0, v0⟩ := kv
    by_cases h : k0 = k <;> simp [dictSet, dictGet, h, ih]

theorem dictKeys_dictSet_of_mem (d : EnvT) (k v w : String)
    (h : dictGet d k = some w) : dictKeys (dictSet d k v) = dictKeys d := by
  induction d with
  | nil => simp [dictGet] at h
  | cons kv r ih =>
    obtain ⟨k0, v0⟩ := kv
    by_cases hk : k0 = k
    · simp [dictSet, dictKeys, hk]
    · simp [dictGet, hk] at h
      simp [dictSet, dictKeys, hk] at ih ⊢
      exact ih h

theorem dictKeys_cons (k0 v0 : String) (r : EnvT) :
    dictKeys ((k0, v0) :: r) = k0 :: dictKeys r := rfl

theorem dictSet_append_of_not_mem (a b : EnvT) (k v : String)
    (h : k ∉ dictKeys a) : dictSet (a ++ b) k v = a ++ dictSet b k v := by
  induction a with
  | nil => simp
  | cons kv r ih =>
    obtain ⟨k0, v0⟩ := kv
    simp only [dictKeys_cons, List.mem_cons, not_or] at h
    simp [dictSet, show ¬(k0 = k) from fun hh => h.1 hh.symm, ih h.2]

theorem foldl_append_acc (g : String × String → List String) (es : EnvT)
    (acc : List String) :
    es.foldl (fun a kv => a ++ g kv) acc = acc ++ es.foldl (fun a kv => a ++ g kv) [] := by
  induction es generalizing acc with
  | nil => simp
  | cons kv r ih =>
    simp only [List.foldl_cons]
    rw [ih (acc ++ g kv), ih ([] ++ g kv)]
    simp

theorem renderExportsDashX_append (a b : EnvT) :
    renderExportsDashX (a ++ b) = renderExportsDashX a ++ renderExportsDashX b := by
  simp only [renderExportsDashX, List.foldl_append]
  rw [foldl_append_acc (fun kv => ["-x", kv.1 ++ "=" ++ kv.2])]

theorem renderExportsDashEnv_append (a b : EnvT) :
    renderExportsDashEnv (a ++ b) = renderExportsDashEnv a ++ renderExportsDashEnv b := by
  simp only [renderExportsDashEnv, List.foldl_append]
  rw [foldl_append_acc (fun kv => ["-env", kv.1 ++ "=" ++ kv.2])]

theorem applyAddExports_append (a b : EnvT) (adds : List (String × String))
    (h : ∀ kv ∈ adds, pyStrip kv.1 ∉ dictKeys a) :
    applyAddExports (a ++ b) adds = a ++ applyAddExports b adds := by
  induction adds generalizing b with
  | nil => simp [applyAddExports]
  | cons kv r ih =>
    simp only [applyAddExports, List.foldl_cons] at ih ⊢
    rw [show add_export (a ++ b) kv.1 kv.2 = a ++ add_export b kv.1 kv.2 from
      dictSet_append_of_not_mem a b _ _ (h kv (by simp))]
    exact ih (add_export b kv.1 kv.2) (fun kv2 hkv2 => h kv2 (by simp [hkv2]))

/-- C2: for every LaunchConfig with `detect_nvlink_pairs` set, regardless of
all other fields, the OpenMPI, MVAPICH and Slurm builders' `get_cmd` produce
an `UnsupportedConfiguration` error and no command vector (in the embedding
the error result is returned before any assembly, mirroring the source order
of the `assert` statements). -/
theorem detect_nvlink_pairs_rejected (args : Args) (resource_pool : List (String × Nat))
    (exports : EnvT) (user_arguments : List String) (amb : Ambient) (environment : EnvT)
    (active_resources : List String) (h : args.detect_nvlink_pairs = true) :
    (∃ m, (openmpi_get_cmd args resource_pool exports amb environment active_resources).1 =
      .error (.unsupportedConfiguration m)) ∧
    (∃ m, (mvapich_get_cmd args resource_pool exports amb environment active_resources).1 =
      .error (.unsupportedConfiguration m)) ∧
    (∃ m, (slurm_get_cmd args resource_pool exports user_arguments amb environment
      active_resources).1 = .error (.unsupportedConfiguration m)) := by
  refine ⟨?_, ?_, ?_⟩
  · simp only [openmpi_get_cmd]
    split_ifs <;> first | exact ⟨_, rfl⟩ | simp_all
  · simp only [mvapich_get_cmd]
    split_ifs <;> first | exact ⟨_, rfl⟩ | simp_all
  · simp only [slurm_get_cmd]
    split_ifs <;> first | exact ⟨_, rfl⟩ | simp_all

/-- Witness for `detect_nvlink_pairs_rejected` at a concrete configuration. -/
theorem detect_nvlink_pairs_rejected_witness :
    ({ argsV with detect_nvlink_pairs := true } : Args).detect_nvlink_pairs = true ∧
    (∃ m, (slurm_get_cmd { argsV with detect_nvlink_pairs := true } [("h1", 4)] [] []
      amb0 [] []).1 = .error (.unsupportedConfiguration m)) :=
  ⟨rfl, (detect_nvlink_pairs_rejected { argsV with detect_nvlink_pairs := true }
    [("h1", 4)] [] [] amb0 [] [] rfl).2.2⟩

/-- C8: for every LaunchConfig with a non-empty `include` or `exclude`, or a
`num_nodes` or `num_gpus` override (any value other than -1), the OpenMPI and
MVAPICH builders' `get_cmd` produce an `UnsupportedConfiguration` error and
no command vector — in particular the MVAPICH hostfile content (delivered
only inside an `ok` result) is never produced. -/
theorem include_exclude_overrides_rejected (args : Args)
    (resource_pool : List (String × Nat)) (exports : EnvT) (amb : Ambient)
    (environment : EnvT) (active_resources : List String)
    (h : args.«include» ≠ "" ∨ args.exclude ≠ "" ∨ args.num_nodes ≠ -1 ∨ args.num_gpus ≠ -1) :
    (∃ m, (openmpi_get_cmd args resource_pool exports amb environment active_resources).1 =
      .error (.unsupportedConfiguration m)) ∧
    (∃ m, (mvapich_get_cmd args resource_pool exports amb environment active_resources).1 =
      .error (.unsupportedConfiguration m)) := by
  refine ⟨?_, ?_⟩
  · simp only [openmpi_get_cmd]
    split_ifs <;>
      first
        | exact ⟨_, rfl⟩
        | (exfalso; rcases h with h | h | h | h <;> simp_all)
  · simp only [mvapich_get_cmd]
    split_ifs <;>
      first
        | exact ⟨_, rfl⟩
        | (exfalso; rcases h with h | h | h | h <;> simp_all)

/-- Witness for `include_exclude_overrides_rejected` at a concrete
configuration requesting two nodes. -/
theorem include_exclude_overrides_rejected_witness :
    (({ argsV with num_nodes := 2 } : Args).«include» ≠ "" ∨
      ({ argsV with num_nodes := 2 } : Args).exclude ≠ "" ∨
      ({ argsV with num_nodes := 2 } : Args).num_nodes ≠ -1 ∨
      ({ argsV with num_nodes := 2 } : Args).num_gpus ≠ -1) ∧
    (∃ m, (mvapich_get_cmd { argsV with num_nodes := 2 } [("h1", 4)] [] amb0 [] []).1 =
      .error (.unsupportedConfiguration m)) :=
  ⟨Or.inr (Or.inr (Or.inl (by decide))),
   (include_exclude_overrides_rejected { argsV with num_nodes := 2 } [("h1", 4)] [] amb0 [] []
     (Or.inr (Or.inr (Or.inl (by decide))))).2⟩

/-- C9: every call of the PDSH builder's `get_cmd` mutates the caller's
environment mapping by setting `PDSH_RCMD_TYPE` to `ssh` (Python dict
assignment), and the `get_cmd` of every other builder returns the passed
environment mapping unchanged, for all inputs. -/
theorem pdsh_env_side_effect (args : Args) (world_info_base64 : String)
    (resource_pool : List (String × Nat)) (exports : EnvT) (user_arguments : List String)
    (amb : Ambient) (environment : EnvT) (active_resources : List String) :
    (pdsh_get_cmd args world_info_base64 exports amb environment active_resources).2 =
      dictSet environment "PDSH_RCMD_TYPE" "ssh" ∧
    dictGet (pdsh_get_cmd args world_info_base64 exports amb environment
      active_resources).2 "PDSH_RCMD_TYPE" = some "ssh" ∧
    (openmpi_get_cmd args resource_pool exports amb environment active_resources).2 =
      environment ∧
    (slurm_get_cmd args resource_pool exports user_arguments amb environment
      active_resources).2 = environment ∧
    (mvapich_get_cmd args resource_pool exports amb environment active_resources).2 =
      environment ∧
    (mosaic_get_cmd args world_info_base64 user_arguments amb environment
      active_resources).2 = environment :=
  ⟨rfl, dictGet_dictSet environment _ _, rfl, rfl, rfl, rfl⟩

/-- C7: the PDSH normalizer maps over the argument list (preserving order and
length), passing arguments that start with `-` through unchanged and wrapping
every other argument in single quotes; in particular the list
`["--foo", "bar baz"]` normalizes to `["--foo", "'bar baz'"]`. -/
theorem pdsh_quote_policy :
    (∀ x, strStartsWith x "-" = true → pdshQuoteArg x = x) ∧
    (∀ x, strStartsWith x "-" = false → pdshQuoteArg x = squoteStr ++ x ++ squoteStr) ∧
    (∀ user_args, pdsh_parse_user_args user_args = user_args.map pdshQuoteArg) ∧
    (∀ user_args, (pdsh_parse_user_args user_args).length = user_args.length) ∧
    pdsh_parse_user_args ["--foo", "bar baz"] =
      ["--foo", squoteStr ++ "bar baz" ++ squoteStr] := by
  refine ⟨?_, ?_, fun _ => rfl, fun l => by simp [pdsh_parse_user_args], rfl⟩
  · intro x hx; simp [pdshQuoteArg, hx]
  · intro x hx; simp [pdshQuoteArg, hx]

/-- Witness for `pdsh_quote_policy` at the positional argument of the
specification's example. -/
theorem pdsh_quote_policy_witness :
    strStartsWith "bar baz" "-" = false ∧
    pdshQuoteArg "bar baz" = squoteStr ++ "bar baz" ++ squoteStr :=
  ⟨rfl, pdsh_quote_policy.2.1 "bar baz" rfl⟩

/-- C6: `add_export` stores both key and value stripped of surrounding
whitespace (looking the stripped key up yields the stripped value);
re-adding an existing key keeps the key sequence — hence the key's insertion
position — unchanged; and the rendered OpenMPI propagation flags follow
insertion order, as on the specification's example. -/
theorem add_export_semantics :
    (∀ exports k v, dictGet (add_export exports k v) (pyStrip k) = some (pyStrip v)) ∧
    (∀ exports k v1 v2,
      dictKeys (add_export (add_export exports k v1) k v2) =
        dictKeys (add_export exports k v1)) ∧
    add_export [] " UCX_TLS " " tcp " = [("UCX_TLS", "tcp")] ∧
    renderExportsDashX (add_export (add_export [] "UCX_TLS" "tcp") "NCCL_DEBUG" "INFO") =
      ["-x", "UCX_TLS=tcp", "-x", "NCCL_DEBUG=INFO"] := by
  refine ⟨?_, ?_, rfl, rfl⟩
  · intro es k v; exact dictGet_dictSet es _ _
  · intro es k v1 v2
    exact dictKeys_dictSet_of_mem _ _ _ _ (dictGet_dictSet es (pyStrip k) (pyStrip v1))

/-- C10: immediately after construction the OpenMPI export table is exactly
`UCX_TLS=tcp` and the MVAPICH table holds exactly its seven defaults in
insertion order; consequently, for any sequence of caller `add_export` calls
whose (stripped) keys are fresh, the rendered propagation flags are the
default flags followed by the flags of the caller-added entries. -/
theorem default_exports_initialized :
    openmpiInitExports = [("UCX_TLS", "tcp")] ∧
    mvapichInitExports = [("MV2_SMP_USE_CMA", "0"), ("MV2_DEBUG_SHOW_BACKTRACE", "1"),
      ("MV2_USE_CUDA", "1"), ("MV2_SUPPORT_DL", "1"), ("MV2_ENABLE_AFFINITY", "0"),
      ("MV2_INTER_ALLGATHER_TUNING", "5"), ("MV2_CUDA_USE_NAIVE", "0")] ∧
    (∀ adds, (∀ kv ∈ adds, pyStrip kv.1 ∉ dictKeys openmpiInitExports) →
      renderExportsDashX (applyAddExports openmpiInitExports adds) =
        ["-x", "UCX_TLS=tcp"] ++ renderExportsDashX (applyAddExports [] adds)) ∧
    (∀ adds, (∀ kv ∈ adds, pyStrip kv.1 ∉ dictKeys mvapichInitExports) →
      renderExportsDashEnv (applyAddExports mvapichInitExports adds) =
        ["-env", "MV2_SMP_USE_CMA=0", "-env", "MV2_DEBUG_SHOW_BACKTRACE=1",
         "-env", "MV2_USE_CUDA=1", "-env", "MV2_SUPPORT_DL=1", "-env", "MV2_ENABLE_AFFINITY=0",
         "-env", "MV2_INTER_ALLGATHER_TUNING=5", "-env", "MV2_CUDA_USE_NAIVE=0"] ++
        renderExportsDashEnv (applyAddExports [] adds)) := by
  refine ⟨rfl, rfl, ?_, ?_⟩
  · intro adds h
    calc renderExportsDashX (applyAddExports openmpiInitExports adds)
        = renderExportsDashX (applyAddExports (openmpiInitExports ++ []) adds) := by
          rw [List.append_nil]
      _ = renderExportsDashX (openmpiInitExports ++ applyAddExports [] adds) := by
          rw [applyAddExports_append _ _ _ h]
      _ = renderExportsDashX openmpiInitExports ++
            renderExportsDashX (applyAddExports [] adds) := renderExportsDashX_append _ _
      _ = ["-x", "UCX_TLS=tcp"] ++ renderExportsDashX (applyAddExports [] adds) := rfl
  · intro adds h
    calc renderExportsDashEnv (applyAddExports mvapichInitExports adds)
        = renderExportsDashEnv (applyAddExports (mvapichInitExports ++ []) adds) := by
          rw [List.append_nil]
      _ = renderExportsDashEnv (mvapichInitExports ++ applyAddExports [] adds) := by
          rw [applyAddExports_append _ _ _ h]
      _ = renderExportsDashEnv mvapichInitExports ++
            renderExportsDashEnv (applyAddExports [] adds) := renderExportsDashEnv_append _ _
      _ = _ ++ renderExportsDashEnv (applyAddExports [] adds) := rfl

/-- Witness for `default_exports_initialized` with one fresh caller export. -/
theorem default_exports_initialized_witness :
    (∀ kv ∈ [("NCCL_DEBUG", "INFO")], pyStrip kv.1 ∉ dictKeys openmpiInitExports) ∧
    renderExportsDashX (applyAddExports openmpiInitExports [("NCCL_DEBUG", "INFO")]) =
      ["-x", "UCX_TLS=tcp"] ++ renderExportsDashX (applyAddExports [] [("NCCL_DEBUG", "INFO")]) :=
  ⟨by decide, default_exports_initialized.2.2.1 [("NCCL_DEBUG", "INFO")] (by decide)⟩

/-- C3: for a non-empty ResourcePool and a configuration passing the other
capability checks, the MVAPICH builder raises `HeterogeneousResourcePool`
exactly when not every host has the first host's device count; when all
counts agree, the command opens with `-np` (total process count, the sum of
all device counts) and `-ppn` (the common per-node count), and the hostfile
content lists every host. -/
theorem mvapich_homogeneous_pool (args : Args) (h0 : String) (n0 : Nat)
    (rp : List (String × Nat)) (exports : EnvT) (amb : Ambient) (environment : EnvT)
    (active_resources : List String)
    (hInc : args.«include» = "") (hExc : args.exclude = "")
    (hNodes : args.num_nodes = -1) (hGpus : args.num_gpus = -1)
    (hDet : args.detect_nvlink_pairs = false) :
    ((∃ m, (mvapich_get_cmd args ((h0, n0) :: rp) exports amb environment
        active_resources).1 = .error (.heterogeneousResourcePool m)) ↔
      (rp.map Prod.snd).all (fun n => n == n0) = false) ∧
    ((rp.map Prod.snd).all (fun n => n == n0) = true →
      ∃ tail, (mvapich_get_cmd args ((h0, n0) :: rp) exports amb environment
        active_resources).1 =
        .ok (["mpirun", "-np", toString (sumValues ((h0, n0) :: rp)), "-ppn", toString n0,
              "--hostfile", MVAPICH_TMP_HOSTFILE] ++ tail,
             String.join (((h0, n0) :: rp).map (fun kv => kv.1 ++ "\n")))) := by
  cases hb : (rp.map Prod.snd).all (fun n => n == n0) with
  | true =>
    constructor
    · simp only [mvapich_get_cmd]
      rw [if_pos ⟨hInc, hExc⟩, if_pos ⟨hNodes, hGpus⟩, if_neg (by simp [hDet])]
      simp only [List.map_cons]
      rw [if_pos hb]
      simp
    · intro _
      simp only [mvapich_get_cmd]
      rw [if_pos ⟨hInc, hExc⟩, if_pos ⟨hNodes, hGpus⟩, if_neg (by simp [hDet])]
      simp only [List.map_cons]
      rw [if_pos hb]
      exact ⟨_, rfl⟩
  | false =>
    constructor
    · simp only [mvapich_get_cmd]
      rw [if_pos ⟨hInc, hExc⟩, if_pos ⟨hNodes, hGpus⟩, if_neg (by simp [hDet])]
      simp only [List.map_cons]
      rw [if_neg (by simp [hb])]
      exact iff_of_true ⟨_, rfl⟩ (by decide)
    · intro hcontra
      exact absurd hcontra (by simp)

/-- Witness for `mvapich_homogeneous_pool` on the specification's two example
pools: `h1:4, h2:4` yields `-np 8 -ppn 4`, while `h1:4, h2:2` fails with
`HeterogeneousResourcePool`. -/
theorem mvapich_homogeneous_pool_witness :
    (∃ tail, (mvapich_get_cmd argsV [("h1", 4), ("h2", 4)] [] amb0 [] []).1 =
      .ok (["mpirun", "-np", "8", "-ppn", "4", "--hostfile", MVAPICH_TMP_HOSTFILE] ++ tail,
           "h1\nh2\n")) ∧
    (∃ m, (mvapich_get_cmd argsV [("h1", 4), ("h2", 2)] [] amb0 [] []).1 =
      .error (.heterogeneousResourcePool m)) :=
  ⟨(mvapich_homogeneous_pool argsV "h1" 4 [("h2", 4)] [] amb0 [] []
      rfl rfl rfl rfl rfl).2 rfl,
   (mvapich_homogeneous_pool argsV "h1" 4 [("h2", 2)] [] amb0 [] []
      rfl rfl rfl rfl rfl).1.mpr rfl⟩

/-- C1 counterexample: the claim says two `get_cmd` calls with identical
(config, world_info, resource_pool, exports, environment, active_resources)
always produce identical output vectors; here every one of those six inputs
is identical, yet the OpenMPI vectors differ because the code additionally
reads `os.environ` (`RUN_MPI_AS_ROOT` toggles `--allow-run-as-root`). -/
theorem get_cmd_purity_cex :
    (openmpi_get_cmd argsV [("h1", 4)] [] ambRoot [] []).1 ≠
      (openmpi_get_cmd argsV [("h1", 4)] [] ambNoRoot [] []).1 := by
  intro hEq
  exact absurd (congrArg cmdLen hEq) (by decide)

/-- C1 (amended): `get_cmd` is a pure function of the claim's six inputs
together with the ambient process state (`sys.executable`, the working
directory, `os.environ`) — in this embedding each `get_cmd` is a Lean
function of exactly those arguments, so that determinism is definitional —
and for every backend, whenever the backend's capability constraints hold
(and the JSON-rewriting backends' normalizer succeeded at construction), the
returned vector ends with the user script followed by the normalized user
arguments. -/
theorem get_cmd_ends_with_script_and_args :
    (∀ (args : Args) world_info_base64 exports amb environment active_resources,
      ∃ p, (pdsh_get_cmd args world_info_base64 exports amb environment
        active_resources).1 = p ++ [args.user_script] ++ pdsh_parse_user_args args.user_args) ∧
    (∀ (args : Args) resource_pool exports amb environment active_resources,
      args.«include» = "" → args.exclude = "" → args.num_nodes = -1 → args.num_gpus = -1 →
      args.detect_nvlink_pairs = false →
      ∃ p, (openmpi_get_cmd args resource_pool exports amb environment
        active_resources).1 = .ok (p ++ [args.user_script] ++ args.user_args)) ∧
    (∀ (args : Args) resource_pool exports user_arguments amb environment active_resources,
      args.detect_nvlink_pairs = false →
      slurm_parse_user_args args.user_args = .ok user_arguments →
      ∃ p, (slurm_get_cmd args resource_pool exports user_arguments amb environment
        active_resources).1 = .ok (p ++ [args.user_script] ++ user_arguments)) ∧
    (∀ (args : Args) (h0 : String) (n0 : Nat) (rp : List (String × Nat)) exports amb
       environment active_resources,
      args.«include» = "" → args.exclude = "" → args.num_nodes = -1 → args.num_gpus = -1 →
      args.detect_nvlink_pairs = false →
      (rp.map Prod.snd).all (fun n => n == n0) = true →
      ∃ p w, (mvapich_get_cmd args ((h0, n0) :: rp) exports amb environment
        active_resources).1 = .ok (p ++ [args.user_script] ++ args.user_args, w)) ∧
    (∀ (args : Args) world_info_base64 user_arguments amb environment active_resources
       nr ma mp,
      dictGet (Ambient.osEnviron amb) "NODE_RANK" = some nr →
      dictGet (Ambient.osEnviron amb) "MASTER_ADDR" = some ma →
      dictGet (Ambient.osEnviron amb) "MASTER_PORT" = some mp →
      mosaic_parse_user_args args.user_args = .ok user_arguments →
      ∃ p, (mosaic_get_cmd args world_info_base64 user_arguments amb environment
        active_resources).1 = .ok (p ++ [args.user_script] ++ user_arguments)) := by
  refine ⟨?_, ?_, ?_, ?_, ?_⟩
  · intro args w e amb env act
    exact ⟨_, rfl⟩
  · intro args rp e amb env act hInc hExc hNodes hGpus hDet
    simp only [openmpi_get_cmd]
    rw [if_pos ⟨hInc, hExc⟩, if_pos ⟨hNodes, hGpus⟩, if_neg (by simp [hDet])]
    exact ⟨_, rfl⟩
  · intro args rp e ua amb env act hDet _
    simp only [slurm_get_cmd]
    rw [if_neg (by simp [hDet])]
    exact ⟨_, rfl⟩
  · intro args h0 n0 rp e amb env act hInc hExc hNodes hGpus hDet hall
    simp only [mvapich_get_cmd]
    rw [if_pos ⟨hInc, hExc⟩, if_pos ⟨hNodes, hGpus⟩, if_neg (by simp [hDet])]
    simp only [List.map_cons]
    rw [if_pos hall]
    exact ⟨_, _, rfl⟩
  · intro args w ua amb env act nr ma mp hnr hma hmp _
    simp only [mosaic_get_cmd, hnr, hma, hmp]
    exact ⟨_, rfl⟩

/-- Witness for `get_cmd_ends_with_script_and_args`, instantiating every
backend at a concrete valid configuration. -/
theorem get_cmd_ends_with_script_and_args_witness :
    (∃ p, (pdsh_get_cmd argsV "d2lu" [] amb0 [] ["h1"]).1 =
      p ++ [argsV.user_script] ++ pdsh_parse_user_args argsV.user_args) ∧
    (∃ p, (openmpi_get_cmd argsV [("h1", 4)] [] amb0 [] []).1 =
      .ok (p ++ [argsV.user_script] ++ argsV.user_args)) ∧
    (slurm_parse_user_args argsV.user_args = .ok ["--foo", "bar baz"] ∧
      ∃ p, (slurm_get_cmd argsV [("h1", 4)] [] ["--foo", "bar baz"] amb0 [] []).1 =
        .ok (p ++ [argsV.user_script] ++ ["--foo", "bar baz"])) ∧
    (∃ p w, (mvapich_get_cmd argsV [("h1", 4), ("h2", 4)] [] amb0 [] []).1 =
      .ok (p ++ [argsV.user_script] ++ argsV.user_args, w)) ∧
    (mosaic_parse_user_args argsV.user_args = .ok ["--foo", "bar baz"] ∧
      ∃ p, (mosaic_get_cmd argsV "d2lu" ["--foo", "bar baz"] amb0 [] []).1 =
        .ok (p ++ [argsV.user_script] ++ ["--foo", "bar baz"])) :=
  ⟨get_cmd_ends_with_script_and_args.1 argsV "d2lu" [] amb0 [] ["h1"],
   get_cmd_ends_with_script_and_args.2.1 argsV [("h1", 4)] [] amb0 [] []
     rfl rfl rfl rfl rfl,
   ⟨rfl, get_cmd_ends_with_script_and_args.2.2.1 argsV [("h1", 4)] []
     ["--foo", "bar baz"] amb0 [] [] rfl rfl⟩,
   get_cmd_ends_with_script_and_args.2.2.2.1 argsV "h1" 4 [("h2", 4)] [] amb0 [] []
     rfl rfl rfl rfl rfl rfl,
   ⟨rfl, get_cmd_ends_with_script_and_args.2.2.2.2 argsV "d2lu" ["--foo", "bar baz"]
     amb0 [] [] "0" "10.0.0.1" "29500" rfl rfl rfl rfl⟩⟩

/-- C4: for every brace-delimited argument that fails to parse as JSON, both
JSON-rewrite normalizers (Slurm and managed-platform) fail with the
`ValueError` of the embedding (`invalidUserConfig`) that wraps the underlying
parse error and carries the backend's message about plain, comment-free JSON
with lowercase boolean literals; and an argument not shaped like a JSON
object never triggers this error (it passes through unchanged). -/
theorem json_rewrite_invalid_user_config (arg e : String)
    (hs : strStartsWith arg lbStr = true) (he : strEndsWith arg rbStr = true)
    (hp : jsonLoads arg = .error e) :
    rewriteUserArg slurmJsonMsg arg = .error (.invalidUserConfig slurmJsonMsg e) ∧
    rewriteUserArg mosaicJsonMsg arg = .error (.invalidUserConfig mosaicJsonMsg e) ∧
    (∀ s, (strStartsWith s lbStr && strEndsWith s rbStr) = false →
      rewriteUserArg slurmJsonMsg s = .ok s ∧ rewriteUserArg mosaicJsonMsg s = .ok s) := by
  refine ⟨?_, ?_, ?_⟩
  · simp [rewriteUserArg, hs, he, hp]
  · simp [rewriteUserArg, hs, he, hp]
  · intro s hcond
    constructor <;> simp [rewriteUserArg, hcond]

/-- Malformed brace-delimited user argument used as a concrete input. -/
def badArg : String := "\x7bnot json\x7d"

/-- Witness for `json_rewrite_invalid_user_config` on a concrete malformed
argument. -/
theorem json_rewrite_invalid_user_config_witness :
    strStartsWith badArg lbStr = true ∧ strEndsWith badArg rbStr = true ∧
    jsonLoads badArg = .error "Expecting property name enclosed in double quotes" ∧
    rewriteUserArg slurmJsonMsg badArg =
      .error (.invalidUserConfig slurmJsonMsg
        "Expecting property name enclosed in double quotes") :=
  ⟨rfl, rfl, rfl,
   (json_rewrite_invalid_user_config badArg _ rfl rfl rfl).1⟩

/-- C5: for every brace-delimited argument that parses to a JSON object whose
`config_files` member is an object of JSON-encoded string values, both
JSON-rewrite normalizers replace each such string with its parsed structured
form (rebuilt in iteration order) and re-serialize the whole object with the
compact separators of `jsonDumps` (no space after a colon or comma); every
argument not starting with an opening brace and ending with a closing brace
passes through the user-argument loop unchanged. -/
theorem json_rewrite_config_files (arg : String) (fields cf : JsonObj)
    (ents : List (String × Json))
    (hs : strStartsWith arg lbStr = true) (he : strEndsWith arg rbStr = true)
    (hp : jsonLoads arg = .ok (.obj fields))
    (hcf : objLookup fields "config_files" = some (.obj cf))
    (hents : parseConfigEntries cf = .ok ents) :
    rewriteUserArg slurmJsonMsg arg =
      .ok (jsonDumps (.obj (objSet fields "config_files" (.obj (objOfPairs ents))))) ∧
    rewriteUserArg mosaicJsonMsg arg =
      .ok (jsonDumps (.obj (objSet fields "config_files" (.obj (objOfPairs ents))))) ∧
    (∀ s, (strStartsWith s lbStr && strEndsWith s rbStr) = false →
      slurm_parse_user_args [s] = .ok [s] ∧ mosaic_parse_user_args [s] = .ok [s]) := by
  refine ⟨?_, ?_, ?_⟩
  · simp [rewriteUserArg, hs, he, hp, rewriteConfigFiles, hcf, hents]
  · simp [rewriteUserArg, hs, he, hp, rewriteConfigFiles, hcf, hents]
  · intro s hcond
    constructor <;>
      simp [slurm_parse_user_args, mosaic_parse_user_args, jsonRewriteUserArgs,
        rewriteUserArg, hcond]

/-- The specification's example argument: a JSON object whose `config_files`
member holds one JSON-encoded string. -/
def cfgArg : String := "\x7b\"config_files\": \x7b\"a\": \"\x7b\\\"x\\\": true\x7d\"\x7d\x7d"

/-- Witness for `json_rewrite_config_files`: the example round-trips to the
same logical object with `config_files.a` structured, serialized compactly. -/
theorem json_rewrite_config_files_witness :
    strStartsWith cfgArg lbStr = true ∧ strEndsWith cfgArg rbStr = true ∧
    jsonLoads cfgArg = .ok (.obj (.cons "config_files"
      (.obj (.cons "a" (.str "\x7b\"x\": true\x7d") .nil)) .nil)) ∧
    rewriteUserArg slurmJsonMsg cfgArg =
      .ok "\x7b\"config_files\":\x7b\"a\":\x7b\"x\":true\x7d\x7d\x7d" :=
  ⟨rfl, rfl, rfl,
   (json_rewrite_config_files cfgArg
     (.cons "config_files" (.obj (.cons "a" (.str "\x7b\"x\": true\x7d") .nil)) .nil)
     (.cons "a" (.str "\x7b\"x\": true\x7d") .nil)
     [("a", .obj (.cons "x" (.bool true) .nil))]
     rfl rfl rfl rfl rfl).1⟩
